import Mathlib

/-!
Verification of the booking-domain core of the fitness-booking-api repository:
the value objects in app/domain/value_objects.py, the BookingSession state
machine in app/domain/entities.py, and the orchestration in
app/application/services.py. Python datetime.date and datetime.time values are
modelled as natural numbers: the source only compares them with equality and
the strict order, and both Python types are totally ordered, so any linearly
ordered carrier is faithful. Python exceptions become explicit error values;
an entity method that raises returns the error together with the object as it
stood at the raise site, mirroring in-place mutation semantics.
-/

namespace FitnessBooking

/-- Calendar date, compared only for equality in the source. -/
abbrev Date := Nat

/-- Time of day; the source compares values with the strict order. -/
abbrev Time := Nat

/-- Timestamp produced by datetime.now in the source. -/
abbrev Timestamp := Nat

/-- BookingStatus from app/domain/entities.py. -/
inductive BookingStatus where
  | PENDING
  | CONFIRMED
  | CANCELLED
  | COMPLETED
deriving DecidableEq, Repr

/-- TimeSlot value object from app/domain/value_objects.py. -/
structure TimeSlot where
  date : Date
  start_time : Time
  end_time : Time
deriving DecidableEq, Repr

/-- Pydantic construction of a TimeSlot with the validate_end_after_start
field validator (value_objects.py lines 19-25): construction fails exactly
when end_time is not strictly after start_time. -/
def TimeSlot.make (d : Date) (s e : Time) : Option TimeSlot :=
  if e ≤ s then none else some ⟨d, s, e⟩

/-- TimeSlot.overlaps_with (value_objects.py lines 27-36): false when the
dates differ, otherwise the standard open-interval intersection test. -/
def TimeSlot.overlaps_with (self other : TimeSlot) : Bool :=
  if self.date ≠ other.date then
    false
  else
    decide (self.start_time < other.end_time) && decide (self.end_time > other.start_time)

/-- SessionDuration value object from app/domain/value_objects.py. -/
structure SessionDuration where
  minutes : Nat
deriving DecidableEq, Repr

/-- Client entity from app/domain/entities.py (fields only; the service uses
it purely for existence checks). -/
structure Client where
  client_id : String
  user_id : String
  name : String
  email : String
  phone : String
  fitness_goals : Option String
deriving DecidableEq, Repr

/-- Trainer entity from app/domain/entities.py (fields only). -/
structure Trainer where
  trainer_id : String
  user_id : String
  name : String
  email : String
  phone : String
  specialty : Option String
  certification : Option String
  experience : Option Nat
deriving DecidableEq, Repr

/-- BookingSession aggregate root from app/domain/entities.py. -/
structure BookingSession where
  booking_id : String
  client_id : String
  trainer_id : String
  time_slot : TimeSlot
  status : BookingStatus
  duration : SessionDuration
  booking_date : Timestamp
  confirmed_date : Option Timestamp
  cancellation_reason : Option String
deriving DecidableEq, Repr

/-- One error value per raise site of the embedded core; the Python source
raises ValueError with a distinct message at each of these sites. -/
inductive DomainError where
  | confirmWrongTrainer
  | confirmInvalidStatus (st : BookingStatus)
  | rejectWrongTrainer
  | rejectInvalidStatus (st : BookingStatus)
  | cancelCompleted
  | cancelAlreadyCancelled
  | completeNotConfirmed
  | clientNotFound (id : String)
  | trainerNotFound (id : String)
  | trainerUnavailable
  | slotConflict
deriving DecidableEq, Repr

/-- BookingSession.confirm (entities.py lines 166-180). Returns the error (if
any) and the object after the call; a raise leaves the object as it was,
since both guards precede the two field assignments. -/
def BookingSession.confirm (b : BookingSession) (trainer_id : String)
    (now : Timestamp) : Option DomainError × BookingSession :=
  if b.trainer_id ≠ trainer_id then
    (some .confirmWrongTrainer, b)
  else if b.status ≠ .PENDING then
    (some (.confirmInvalidStatus b.status), b)
  else
    (none, { b with status := .CONFIRMED, confirmed_date := some now })

/-- BookingSession.reject (entities.py lines 182-194). The cancellation
reason is the literal source string "Ditolak oleh trainer: " followed by the
given reason. -/
def BookingSession.reject (b : BookingSession) (trainer_id : String)
    (reason : String) : Option DomainError × BookingSession :=
  if b.trainer_id ≠ trainer_id then
    (some .rejectWrongTrainer, b)
  else if b.status ≠ .PENDING then
    (some (.rejectInvalidStatus b.status), b)
  else
    (none, { b with status := .CANCELLED,
                    cancellation_reason := some ("Ditolak oleh trainer: " ++ reason) })

/-- BookingSession.cancel (entities.py lines 196-209). The user_id argument
is accepted but never read, exactly as in the source. -/
def BookingSession.cancel (b : BookingSession) (user_id : String)
    (reason : String) : Option DomainError × BookingSession :=
  if b.status = .COMPLETED then
    (some .cancelCompleted, b)
  else if b.status = .CANCELLED then
    (some .cancelAlreadyCancelled, b)
  else
    (none, { b with status := .CANCELLED, cancellation_reason := some reason })

/-- BookingSession.complete (entities.py lines 211-219). -/
def BookingSession.complete (b : BookingSession) :
    Option DomainError × BookingSession :=
  if b.status ≠ .CONFIRMED then
    (some .completeNotConfirmed, b)
  else
    (none, { b with status := .COMPLETED })

/-- BookingService.create_booking (services.py lines 36-84). The injected
repositories are modelled by the lists of stored entities (find_by_id is a
linear search on the key, find_by_trainer_id is a filter, as in
InMemoryBookingRepository) and the scheduling oracle by a boolean function;
the generated uuid and datetime.now are passed in as new_id and now. -/
def create_booking (bookings : List BookingSession) (clients : List Client)
    (trainers : List Trainer) (avail : String → TimeSlot → Bool)
    (client_id trainer_id : String) (time_slot : TimeSlot)
    (duration : SessionDuration) (new_id : String) (now : Timestamp) :
    Except DomainError BookingSession :=
  if (clients.find? (fun c => c.client_id == client_id)).isNone then
    .error (.clientNotFound client_id)
  else if (trainers.find? (fun t => t.trainer_id == trainer_id)).isNone then
    .error (.trainerNotFound trainer_id)
  else if !(avail trainer_id time_slot) then
    .error .trainerUnavailable
  else if (bookings.filter (fun b => b.trainer_id == trainer_id)).any
      (fun b => (decide (b.status = .PENDING) || decide (b.status = .CONFIRMED))
        && b.time_slot.overlaps_with time_slot) then
    .error .slotConflict
  else
    .ok { booking_id := new_id, client_id := client_id, trainer_id := trainer_id,
          time_slot := time_slot, status := .PENDING, duration := duration,
          booking_date := now, confirmed_date := none, cancellation_reason := none }

/-- Sample slot 09:00 to 10:00 used by concrete witnesses (times in minutes
of the day, date as an ordinal). -/
def slot0900to1000 : TimeSlot := ⟨20251220, 540, 600⟩

/-- Sample PENDING booking used by concrete witnesses. -/
def pendingBooking : BookingSession :=
  { booking_id := "BK1", client_id := "CL1", trainer_id := "TR1",
    time_slot := slot0900to1000, status := .PENDING,
    duration := ⟨60⟩, booking_date := 0, confirmed_date := none,
    cancellation_reason := none }

/-- Sample CONFIRMED booking with a confirmation timestamp. -/
def confirmedBooking : BookingSession :=
  { pendingBooking with status := .CONFIRMED, confirmed_date := some 7 }

/-- Sample COMPLETED booking. -/
def completedBooking : BookingSession :=
  { pendingBooking with status := .COMPLETED }

/-- Sample CANCELLED booking. -/
def cancelledBooking : BookingSession :=
  { pendingBooking with status := .CANCELLED,
                        cancellation_reason := some "Berhalangan hadir" }

/-- Sample client record used by concrete witnesses. -/
def sampleClient : Client :=
  { client_id := "CL1", user_id := "USR1", name := "John", email := "j@x.co",
    phone := "081", fitness_goals := none }

/-- Sample trainer record used by concrete witnesses. -/
def sampleTrainer : Trainer :=
  { trainer_id := "TR1", user_id := "USR2", name := "Jane", email := "t@x.co",
    phone := "082", specialty := none, certification := none, experience := some 5 }

/-- Claim C3: overlaps_with returns false on differing dates; on equal dates
it is true exactly when the open intervals intersect; touching slots (one
ends where the other starts) never overlap. -/
theorem overlaps_with_spec (a b : TimeSlot) :
    (a.date ≠ b.date → a.overlaps_with b = false) ∧
    (a.date = b.date →
      (a.overlaps_with b = true ↔
        a.start_time < b.end_time ∧ a.end_time > b.start_time)) ∧
    (a.date = b.date → a.end_time = b.start_time → a.overlaps_with b = false) := by
  unfold TimeSlot.overlaps_with
  refine ⟨fun h => by simp [h], fun h => by simp [h], fun h he => ?_⟩
  simp [h, he]

/-- Concrete check of overlaps_with_spec on three slot pairs. -/
theorem overlaps_with_spec_witness :
    TimeSlot.overlaps_with ⟨1, 540, 600⟩ ⟨2, 540, 600⟩ = false ∧
    (TimeSlot.overlaps_with ⟨1, 540, 600⟩ ⟨1, 570, 630⟩ = true ↔
      (540 : Nat) < 630 ∧ (600 : Nat) > 570) ∧
    TimeSlot.overlaps_with ⟨1, 540, 600⟩ ⟨1, 600, 660⟩ = false :=
  ⟨(overlaps_with_spec ⟨1, 540, 600⟩ ⟨2, 540, 600⟩).1 (by decide),
   (overlaps_with_spec ⟨1, 540, 600⟩ ⟨1, 570, 630⟩).2.1 rfl,
   (overlaps_with_spec ⟨1, 540, 600⟩ ⟨1, 600, 660⟩).2.2 rfl rfl⟩

/-- Claim C7: TimeSlot construction succeeds exactly when the end time is
strictly after the start time. -/
theorem timeslot_make_spec (d : Date) (s e : Time) :
    (TimeSlot.make d s e).isSome = true ↔ s < e := by
  unfold TimeSlot.make
  split
  · rename_i h
    simp only [Option.isSome_none, Bool.false_eq_true, false_iff]
    exact Nat.not_lt.mpr h
  · rename_i h
    simp only [Option.isSome_some, true_iff]
    exact Nat.not_le.mp h

/-- Claim C8: on a shared date, overlaps_with is symmetric. -/
theorem overlaps_with_symm (a b : TimeSlot) (h : a.date = b.date) :
    a.overlaps_with b = b.overlaps_with a := by
  unfold TimeSlot.overlaps_with
  simp [h, gt_iff_lt, Bool.and_comm]

/-- Concrete check of overlaps_with_symm. -/
theorem overlaps_with_symm_witness :
    TimeSlot.overlaps_with ⟨1, 540, 600⟩ ⟨1, 570, 630⟩ =
      TimeSlot.overlaps_with ⟨1, 570, 630⟩ ⟨1, 540, 600⟩ :=
  overlaps_with_symm ⟨1, 540, 600⟩ ⟨1, 570, 630⟩ rfl

/-- Claim C1, counterexample: rejecting a PENDING booking through its own
trainer succeeds and moves it to CANCELLED, but the stored cancellation
reason is not the string "Rejected by trainer: " followed by the reason; the
source writes the Indonesian literal "Ditolak oleh trainer: " instead. -/
theorem reject_reason_counterexample :
    pendingBooking.status = .PENDING ∧
    pendingBooking.trainer_id = "TR1" ∧
    (pendingBooking.reject "TR1" "sakit").1 = none ∧
    (pendingBooking.reject "TR1" "sakit").2.status = .CANCELLED ∧
    (pendingBooking.reject "TR1" "sakit").2.cancellation_reason ≠
      some ("Rejected by trainer: " ++ "sakit") := by
  decide

/-- Claim C1 (amended): rejecting a PENDING booking with the trainer id of
the booking succeeds, sets status to CANCELLED and sets the cancellation
reason to "Ditolak oleh trainer: " followed by the reason. -/
theorem reject_pending_by_trainer (b : BookingSession) (tid reason : String)
    (hs : b.status = .PENDING) (ht : tid = b.trainer_id) :
    (b.reject tid reason).1 = none ∧
    (b.reject tid reason).2.status = .CANCELLED ∧
    (b.reject tid reason).2.cancellation_reason =
      some ("Ditolak oleh trainer: " ++ reason) := by
  simp [BookingSession.reject, ht, hs]

/-- Concrete check of reject_pending_by_trainer. -/
theorem reject_pending_by_trainer_witness :
    (pendingBooking.reject "TR1" "sakit").1 = none ∧
    (pendingBooking.reject "TR1" "sakit").2.status = .CANCELLED ∧
    (pendingBooking.reject "TR1" "sakit").2.cancellation_reason =
      some ("Ditolak oleh trainer: " ++ "sakit") :=
  reject_pending_by_trainer pendingBooking "TR1" "sakit" rfl rfl

/-- Claim C4: from COMPLETED every transition fails, and complete succeeds
exactly from CONFIRMED. -/
theorem completed_terminal (b : BookingSession) (tid uid reason : String)
    (now : Timestamp) :
    (b.status = .COMPLETED →
      (b.confirm tid now).1.isSome = true ∧
      (b.reject tid reason).1.isSome = true ∧
      (b.cancel uid reason).1.isSome = true ∧
      b.complete.1.isSome = true) ∧
    (b.complete.1 = none ↔ b.status = .CONFIRMED) := by
  constructor
  · intro h
    by_cases htid : b.trainer_id = tid <;>
      simp [BookingSession.confirm, BookingSession.reject, BookingSession.cancel,
            BookingSession.complete, htid, h]
  · cases hb : b.status <;> simp [BookingSession.complete, hb]

/-- Concrete check of completed_terminal on a COMPLETED booking. -/
theorem completed_terminal_witness :
    (completedBooking.confirm "TR1" 5).1.isSome = true ∧
    (completedBooking.reject "TR1" "x").1.isSome = true ∧
    (completedBooking.cancel "CL1" "x").1.isSome = true ∧
    completedBooking.complete.1.isSome = true :=
  (completed_terminal completedBooking "TR1" "CL1" "x" 5).1 rfl

/-- Claim C5: cancel fails exactly when the booking is COMPLETED or already
CANCELLED; otherwise it succeeds for any acting user id, setting status to
CANCELLED and storing the reason verbatim. -/
theorem cancel_spec (b : BookingSession) (uid reason : String) :
    ((b.cancel uid reason).1.isSome = true ↔
      (b.status = .COMPLETED ∨ b.status = .CANCELLED)) ∧
    (b.status ≠ .COMPLETED → b.status ≠ .CANCELLED →
      (b.cancel uid reason).1 = none ∧
      (b.cancel uid reason).2.status = .CANCELLED ∧
      (b.cancel uid reason).2.cancellation_reason = some reason) := by
  cases hb : b.status <;> simp [BookingSession.cancel, hb]

/-- Concrete check of cancel_spec: a user id unrelated to the booking is
accepted. -/
theorem cancel_spec_witness :
    (pendingBooking.cancel "SOMEBODY" "Berhalangan").1 = none ∧
    (pendingBooking.cancel "SOMEBODY" "Berhalangan").2.status = .CANCELLED ∧
    (pendingBooking.cancel "SOMEBODY" "Berhalangan").2.cancellation_reason =
      some "Berhalangan" :=
  (cancel_spec pendingBooking "SOMEBODY" "Berhalangan").2 (by decide) (by decide)

/-- Claim C6: whenever confirm, reject, cancel or complete fails, the booking
after the call equals the booking before the call. -/
theorem failure_frame (b : BookingSession) (tid uid reason : String)
    (now : Timestamp) :
    ((b.confirm tid now).1.isSome = true → (b.confirm tid now).2 = b) ∧
    ((b.reject tid reason).1.isSome = true → (b.reject tid reason).2 = b) ∧
    ((b.cancel uid reason).1.isSome = true → (b.cancel uid reason).2 = b) ∧
    (b.complete.1.isSome = true → b.complete.2 = b) := by
  by_cases h1 : b.trainer_id = tid <;> cases hb : b.status <;>
    simp [BookingSession.confirm, BookingSession.reject, BookingSession.cancel,
          BookingSession.complete, h1, hb]

/-- Concrete check of failure_frame: a confirm by the wrong trainer fails and
leaves the booking unchanged. -/
theorem failure_frame_witness :
    (pendingBooking.confirm "TR2" 5).1.isSome = true ∧
    (pendingBooking.confirm "TR2" 5).2 = pendingBooking :=
  ⟨by decide, (failure_frame pendingBooking "TR2" "CL1" "x" 5).1 (by decide)⟩

/-- Claim C9: with a trainer id different from the booking trainer, confirm
and reject report the authorization error whatever the current status is:
the identity guard precedes the status guard. -/
theorem wrong_trainer_auth_error (b : BookingSession) (tid reason : String)
    (now : Timestamp) (h : tid ≠ b.trainer_id) :
    (b.confirm tid now).1 = some .confirmWrongTrainer ∧
    (b.reject tid reason).1 = some .rejectWrongTrainer := by
  have h2 : b.trainer_id ≠ tid := fun he => h he.symm
  simp [BookingSession.confirm, BookingSession.reject, h2]

/-- Concrete check of wrong_trainer_auth_error on a COMPLETED booking: the
reported failure is the authorization one, not the invalid-state one. -/
theorem wrong_trainer_auth_error_witness :
    (completedBooking.confirm "TR2" 5).1 = some .confirmWrongTrainer ∧
    (completedBooking.reject "TR2" "x").1 = some .rejectWrongTrainer :=
  wrong_trainer_auth_error completedBooking "TR2" "x" 5 (by decide)

/-- Claim C10: a successful cancel changes only status and
cancellation_reason; every other field keeps its value. -/
theorem cancel_frame (b : BookingSession) (uid reason : String)
    (h : (b.cancel uid reason).1 = none) :
    (b.cancel uid reason).2.booking_id = b.booking_id ∧
    (b.cancel uid reason).2.client_id = b.client_id ∧
    (b.cancel uid reason).2.trainer_id = b.trainer_id ∧
    (b.cancel uid reason).2.time_slot = b.time_slot ∧
    (b.cancel uid reason).2.duration = b.duration ∧
    (b.cancel uid reason).2.booking_date = b.booking_date ∧
    (b.cancel uid reason).2.confirmed_date = b.confirmed_date := by
  cases hb : b.status <;> simp [BookingSession.cancel, hb] at h ⊢

/-- Concrete check of cancel_frame on a CONFIRMED booking: the confirmation
timestamp survives the cancellation. -/
theorem cancel_frame_witness :
    (confirmedBooking.cancel "CL1" "x").2.booking_id = confirmedBooking.booking_id ∧
    (confirmedBooking.cancel "CL1" "x").2.client_id = confirmedBooking.client_id ∧
    (confirmedBooking.cancel "CL1" "x").2.trainer_id = confirmedBooking.trainer_id ∧
    (confirmedBooking.cancel "CL1" "x").2.time_slot = confirmedBooking.time_slot ∧
    (confirmedBooking.cancel "CL1" "x").2.duration = confirmedBooking.duration ∧
    (confirmedBooking.cancel "CL1" "x").2.booking_date = confirmedBooking.booking_date ∧
    (confirmedBooking.cancel "CL1" "x").2.confirmed_date = confirmedBooking.confirmed_date :=
  cancel_frame confirmedBooking "CL1" "x" (by decide)

theorem conflict_any_iff (bookings : List BookingSession) (tid : String)
    (ts : TimeSlot) :
    ((bookings.filter (fun b => b.trainer_id == tid)).any
      (fun b => (decide (b.status = .PENDING) || decide (b.status = .CONFIRMED))
        && b.time_slot.overlaps_with ts) = true)
    ↔ ∃ b ∈ bookings, b.trainer_id = tid
        ∧ (b.status = .PENDING ∨ b.status = .CONFIRMED)
        ∧ b.time_slot.overlaps_with ts = true := by
  rw [List.any_eq_true]
  constructor
  · rintro ⟨b, hmem, hp⟩
    simp only [List.mem_filter, beq_iff_eq] at hmem
    simp only [Bool.and_eq_true, Bool.or_eq_true, decide_eq_true_eq] at hp
    exact ⟨b, hmem.1, hmem.2, hp.1, hp.2⟩
  · rintro ⟨b, hmem, htr, hst, hov⟩
    refine ⟨b, ?_, ?_⟩
    · simp only [List.mem_filter, beq_iff_eq]
      exact ⟨hmem, htr⟩
    · simp only [Bool.and_eq_true, Bool.or_eq_true, decide_eq_true_eq]
      exact ⟨hst, hov⟩

/-- Claim C2: once the client, trainer and availability checks pass,
create_booking reports the conflict error exactly when some stored booking
of the same trainer in status PENDING or CONFIRMED overlaps the requested
slot; when no such booking exists (in particular when every same-trainer
booking is CANCELLED or COMPLETED) it succeeds and returns the freshly built
PENDING booking. -/
theorem create_booking_conflict_iff (bookings : List BookingSession)
    (clients : List Client) (trainers : List Trainer)
    (avail : String → TimeSlot → Bool) (client_id trainer_id : String)
    (time_slot : TimeSlot) (duration : SessionDuration) (new_id : String)
    (now : Timestamp)
    (hc : (clients.find? (fun c => c.client_id == client_id)).isSome = true)
    (ht : (trainers.find? (fun t => t.trainer_id == trainer_id)).isSome = true)
    (ha : avail trainer_id time_slot = true) :
    (create_booking bookings clients trainers avail client_id trainer_id
        time_slot duration new_id now = .error .slotConflict
      ↔ ∃ b ∈ bookings, b.trainer_id = trainer_id
          ∧ (b.status = .PENDING ∨ b.status = .CONFIRMED)
          ∧ b.time_slot.overlaps_with time_slot = true)
    ∧ ((∀ b ∈ bookings, b.trainer_id = trainer_id →
          (b.status = .PENDING ∨ b.status = .CONFIRMED) →
          b.time_slot.overlaps_with time_slot = false) →
        create_booking bookings clients trainers avail client_id trainer_id
            time_slot duration new_id now
          = .ok { booking_id := new_id, client_id := client_id,
                  trainer_id := trainer_id, time_slot := time_slot,
                  status := .PENDING, duration := duration, booking_date := now,
                  confirmed_date := none, cancellation_reason := none }) := by
  have hc2 : (clients.find? (fun c => c.client_id == client_id)).isNone = false := by
    cases hfind : clients.find? (fun c => c.client_id == client_id) <;> simp_all
  have ht2 : (trainers.find? (fun t => t.trainer_id == trainer_id)).isNone = false := by
    cases hfind : trainers.find? (fun t => t.trainer_id == trainer_id) <;> simp_all
  unfold create_booking
  rw [hc2, ht2, ha]
  simp only [Bool.false_eq_true, if_false, Bool.not_true, if_true]
  constructor
  · rw [← conflict_any_iff bookings trainer_id time_slot]
    split <;> simp_all
  · intro hno
    have hfalse : ¬ ((bookings.filter (fun b => b.trainer_id == trainer_id)).any
        (fun b => (decide (b.status = .PENDING) || decide (b.status = .CONFIRMED))
          && b.time_slot.overlaps_with time_slot) = true) := by
      rw [conflict_any_iff bookings trainer_id time_slot]
      rintro ⟨b, hb, hbt, hbs, hbo⟩
      have := hno b hb hbt hbs
      rw [this] at hbo
      exact Bool.false_ne_true hbo
    simp [hfalse]

/-- Concrete check of create_booking_conflict_iff: a CANCELLED booking at the
exact same slot for the same trainer does not block a new booking. -/
theorem create_booking_conflict_iff_witness :
    create_booking [cancelledBooking] [sampleClient] [sampleTrainer]
        (fun _ _ => true) "CL1" "TR1" slot0900to1000 ⟨60⟩ "BK2" 10
      = .ok { booking_id := "BK2", client_id := "CL1", trainer_id := "TR1",
              time_slot := slot0900to1000, status := .PENDING, duration := ⟨60⟩,
              booking_date := 10, confirmed_date := none,
              cancellation_reason := none } :=
  (create_booking_conflict_iff [cancelledBooking] [sampleClient] [sampleTrainer]
      (fun _ _ => true) "CL1" "TR1" slot0900to1000 ⟨60⟩ "BK2" 10
      (by decide) (by decide) rfl).2 (by decide)

end FitnessBooking
